import Mathlib

/-!
Shallow embedding of the `pichler` repository (files `pichler.py` and
`nabto.py`): a thin Python binding over the closed-source Nabto client
library, plus a device-accessor convenience layer.

The native library is opaque; it is modelled as an oracle function from
URL strings to optional JSON responses (`none` = no output buffer), and,
for the session-open path, as status oracles for the `nabtoOpenSession`
and `nabtoCreateProfile` calls.  Parsed JSON values are modelled by the
inductive `Json`; Python `dict`/`list` truthiness, subscripting
(`KeyError` / `TypeError` / `IndexError`) and `configparser` lookups are
modelled explicitly.
-/

/-- A parsed JSON value, as produced by Python's `json.loads`.  Objects
keep their fields in insertion order, matching Python 3 `dict`s. -/
inductive Json where
  | num (n : Int)
  | str (s : String)
  | arr (xs : List Json)
  | obj (fields : List (String × Json))
deriving Repr

/-- Python truthiness of a JSON value: empty containers, zero and the
empty string are falsy. -/
def Json.truthy : Json → Bool
  | .num n => n != 0
  | .str s => s != ""
  | .arr xs => !xs.isEmpty
  | .obj fs => !fs.isEmpty

/-- Errors a Python execution of this code can raise. -/
inductive PyError where
  | keyError (k : String)
  | typeError
  | indexError
  | configError (k : String)
deriving DecidableEq, Repr

/-- First-match field lookup in a JSON object's field list (Python
`dict` access; keys are unique in a real `dict`, so first match wins). -/
def getField : List (String × Json) → String → Option Json
  | [], _ => none
  | (k, v) :: fs, key => if k = key then some v else getField fs key

/-- Python subscripting `j[k]` with a string key: on a `dict`, field
lookup raising `KeyError` when absent; on any other value, `TypeError`. -/
def pyIndex (j : Json) (k : String) : Except PyError Json :=
  match j with
  | .obj fs =>
      match getField fs k with
      | some v => .ok v
      | none => .error (.keyError k)
  | _ => .error .typeError

/-- Python iteration over a JSON value: a list yields its elements, a
dict yields its keys, a string yields its characters, a number raises
`TypeError`. -/
def pyIter : Json → Except PyError (List Json)
  | .arr xs => .ok xs
  | .obj fs => .ok (fs.map fun kv => Json.str kv.1)
  | .str s => .ok (s.toList.map fun c => Json.str c.toString)
  | .num _ => .error .typeError

/-- The list comprehension over response data used by every read
operation in `pichler.py`: extract the field named value of each
element, left to right, raising on the first bad element. -/
def extractValues : List Json → Except PyError (List Json)
  | [] => .ok []
  | i :: rest => do
      let v ← pyIndex i "value"
      let vs ← extractValues rest
      .ok (v :: vs)

mutual
/-- Python `json.dumps` with default separators, restricted to the
values this code serializes (no escaping is needed for them). -/
def jsonDumps : Json → String
  | .num n => toString n
  | .str s => "\"" ++ s ++ "\""
  | .arr xs => "[" ++ String.intercalate ", " (jsonDumpsArr xs) ++ "]"
  | .obj fs => "\x7b" ++ String.intercalate ", " (jsonDumpsObj fs) ++ "\x7d"

/-- Serialization of a JSON array's elements. -/
def jsonDumpsArr : List Json → List String
  | [] => []
  | x :: xs => jsonDumps x :: jsonDumpsArr xs

/-- Serialization of a JSON object's fields. -/
def jsonDumpsObj : List (String × Json) → List String
  | [] => []
  | (k, v) :: fs => ("\"" ++ k ++ "\": " ++ jsonDumps v) :: jsonDumpsObj fs
end

/-!
Model of `nabto.py`.  The native library calls `nabtoOpenSession` and
`nabtoCreateProfile` return integer statuses; `nabtoRpcInvoke` fills an
optional output buffer.  We model the native layer as oracles.
-/

/-- A call into the native Nabto library made while opening a session. -/
inductive NabtoCall where
  | openSession
  | createProfile
deriving DecidableEq, Repr

/-- Model of `Client.Session.__init__` in `nabto.py`: call
`nabtoOpenSession`; when it returns the sentinel status 5 (no such
profile), call `nabtoCreateProfile` once (its status is only logged) and
retry `nabtoOpenSession` once.  `openStatus k` is the status of the
k-th `nabtoOpenSession` call and `createStatus` that of the (single
possible) `nabtoCreateProfile` call.  Returns the ordered trace of
native calls and the final status. -/
def sessionInit (openStatus : Nat → Int) (createStatus : Int) :
    List NabtoCall × Int :=
  let status := openStatus 0
  if status = 5 then
    let _logged := createStatus
    let status := openStatus 1
    ([.openSession, .createProfile, .openSession], status)
  else
    ([.openSession], status)

/-- Model of `Client.Session.rpc_invoke` in `nabto.py`: call the native
invoke with the URL; when the output buffer is present, parse it as
JSON, otherwise return the empty list.  `native` maps the URL to the
parsed output buffer (`none` = no output buffer). -/
def sessionRpcInvoke (native : String → Option Json) (nabtoUrl : String) : Json :=
  match native nabtoUrl with
  | some r => r
  | none => .arr []

/-- An operation performed on a `Client.Session` object after
construction. -/
inductive SessionOp where
  | bindInterface (xml : String)
  | invoke (url : String)
  | close
deriving DecidableEq, Repr

/-- Outcome of a session operation, for the state-machine view: the
operation is either forwarded to the native library (with whatever
handle the session holds) or rejected with an illegal-state error. -/
inductive OpOutcome where
  | nativeCalled
  | illegalState
deriving DecidableEq, Repr

/-- Model of how `Client.Session` in `nabto.py` dispatches operations.
The class stores only `self.client` and `self.session`; it keeps no
closed flag and none of `rpc_set_default_interface`, `rpc_invoke` or the
destructor's `nabtoCloseSession` inspects any state before calling the
native library.  The boolean tracks whether the session has been closed
(the destructor ran); every operation is forwarded to the native layer
unconditionally. -/
def sessionStep (closed : Bool) (op : SessionOp) : Bool × OpOutcome :=
  match op with
  | .bindInterface _ => (closed, .nativeCalled)
  | .invoke _ => (closed, .nativeCalled)
  | .close => (true, .nativeCalled)

/-!
Model of `pichler.py`.  The constructor resolves the identity triple
(explicit argument else `pichler.ini` configuration), normalizes the
device id, then opens a session.  All read operations go through
`Pichler.RpcInvoke`, which builds a nabto URL and unwraps the
top-level response field.
-/

/-- The identity triple a `Pichler` object stores after construction
(`self.device`; user and password are handed to the session). -/
structure PichlerState where
  device : String
  user : String
  passwd : String
deriving DecidableEq, Repr

/-- Python truthiness of an optional string argument: `None` and the
empty string are falsy (`if not device: ...`). -/
def truthyOpt : Option String → Bool
  | some s => s ≠ ""
  | none => false

/-- One field of the fallback in `Pichler.__init__`: keep the argument
when truthy, otherwise look the key up in the parsed `pichler.ini`
(`config.get` raises when the entry is absent, modelled as
`configError`).  Also returns the list of configuration keys read. -/
def resolveField (arg : Option String) (config : String → Option String)
    (key : String) : Except PyError (String × List String) :=
  if truthyOpt arg then .ok (arg.getD "", [])
  else
    match config key with
    | some v => .ok (v, [key])
    | none => .error (.configError key)

/-- Device-id normalization in `Pichler.__init__`: when the id contains
no domain separator, append the fixed remote suffix. -/
def normalizeDevice (device : String) : String :=
  if device.toList.contains '.' then device
  else device ++ ".remote.lscontrol.dk"

/-- Model of the identity-resolution part of `Pichler.__init__`: when
any of the three arguments is falsy, the configuration is consulted for
exactly the falsy fields (in the order device, user, pass), then the
device id is normalized.  Returns the resolved state together with the
ordered list of configuration keys read. -/
def pichlerInit (device user passwd : Option String)
    (config : String → Option String) :
    Except PyError (PichlerState × List String) :=
  if truthyOpt device && truthyOpt user && truthyOpt passwd then
    .ok ({ device := normalizeDevice (device.getD ""),
           user := user.getD "", passwd := passwd.getD "" }, [])
  else do
    let (d, rd) ← resolveField device config "device"
    let (u, ru) ← resolveField user config "user"
    let (p, rp) ← resolveField passwd config "pass"
    .ok ({ device := normalizeDevice d, user := u, passwd := p },
         rd ++ ru ++ rp)

/-- The URL `Pichler.RpcInvoke` builds:
`nabto://<device>/<command>.json?<params>`. -/
def invokeUrl (device command params : String) : String :=
  "nabto://" ++ device ++ "/" ++ command ++ ".json?" ++ params

/-- Model of `Pichler.RpcInvoke`: invoke the session on the built URL;
when the result is truthy return its response field, otherwise return
the empty list. -/
def Pichler.RpcInvoke (native : String → Option Json)
    (device command params : String) : Except PyError Json :=
  let r := sessionRpcInvoke native (invokeUrl device command params)
  if r.truthy then pyIndex r "response" else .ok (.arr [])

/-- Model of `Pichler.Ping`: invoke the ping command with the fixed
magic parameter. -/
def Pichler.Ping (native : String → Option Json) (device : String) :
    Except PyError Json :=
  Pichler.RpcInvoke native device "ping" "ping=1885957735"

/-- Shared body of the plain read operations: when the response is
truthy, extract the value field of each element of its data field in
order; otherwise return the empty list. -/
def readValuesBody (response : Json) : Except PyError (List Json) :=
  if response.truthy then do
    let data ← pyIndex response "data"
    let items ← pyIter data
    extractValues items
  else .ok []

/-- Model of `Pichler.DatapointRawReadValues`: invoke
datapointReadValue with address/obj/length query parameters and
extract the values of the response data in order. -/
def Pichler.DatapointRawReadValues (native : String → Option Json)
    (device : String) (address obj length : Int) :
    Except PyError (List Json) := do
  let response ← Pichler.RpcInvoke native device "datapointReadValue"
    ("address=" ++ toString address ++ "&obj=" ++ toString obj ++
     "&length=" ++ toString length)
  readValuesBody response

/-- Model of `Pichler.DatapointRawReadValue`: read a single datapoint
as element 0 of the length-1 list read (`IndexError` when empty). -/
def Pichler.DatapointRawReadValue (native : String → Option Json)
    (device : String) (address : Int) (obj : Int := 0) :
    Except PyError Json := do
  let vs ← Pichler.DatapointRawReadValues native device address obj 1
  match vs with
  | [] => .error .indexError
  | v :: _ => .ok v

/-- An element of the input list to the batch reads: a Python
`(address, object)` tuple or any non-tuple value used as a bare
address. -/
inductive BatchItem where
  | pair (address obj : Int)
  | bare (address : Int)
deriving DecidableEq, Repr

/-- The request entry built from one input element of a batch read:
a tuple becomes its address/obj pair, a non-tuple becomes an address
with obj defaulting to 0. -/
def listEntry : BatchItem → Json
  | .pair a o => .obj [("address", .num a), ("obj", .num o)]
  | .bare a => .obj [("address", .num a), ("obj", .num 0)]

/-- The structured request body of the batch reads:
`\x7brequest: \x7blist: [entries...]\x7d\x7d`. -/
def batchRequest (lst : List BatchItem) : Json :=
  .obj [("request", .obj [("list", .arr (lst.map listEntry))])]

/-- Model of `Pichler.DatapointRawReadListValues`: JSON-encode the
batch request as the single json query parameter of
datapointReadListValue and extract the response values in order. -/
def Pichler.DatapointRawReadListValues (native : String → Option Json)
    (device : String) (lst : List BatchItem) :
    Except PyError (List Json) := do
  let response ← Pichler.RpcInvoke native device "datapointReadListValue"
    ("json=" ++ jsonDumps (batchRequest lst))
  readValuesBody response

/-- Model of `Pichler.SetpointRawReadValues`: like the datapoint
variant, against setpointReadValue. -/
def Pichler.SetpointRawReadValues (native : String → Option Json)
    (device : String) (address obj length : Int) :
    Except PyError (List Json) := do
  let response ← Pichler.RpcInvoke native device "setpointReadValue"
    ("address=" ++ toString address ++ "&obj=" ++ toString obj ++
     "&length=" ++ toString length)
  readValuesBody response

/-- Model of `Pichler.SetpointRawReadValue`: element 0 of the length-1
setpoint list read (`IndexError` when empty). -/
def Pichler.SetpointRawReadValue (native : String → Option Json)
    (device : String) (address : Int) (obj : Int := 0) :
    Except PyError Json := do
  let vs ← Pichler.SetpointRawReadValues native device address obj 1
  match vs with
  | [] => .error .indexError
  | v :: _ => .ok v

/-- Model of `Pichler.SetpointRawReadListValues`: like the datapoint
variant, against setpointReadListValue. -/
def Pichler.SetpointRawReadListValues (native : String → Option Json)
    (device : String) (lst : List BatchItem) :
    Except PyError (List Json) := do
  let response ← Pichler.RpcInvoke native device "setpointReadListValue"
    ("json=" ++ jsonDumps (batchRequest lst))
  readValuesBody response

/-- A mocked native layer that answers every invoke with a response
whose data array holds the given raw values in order. -/
def respNative (vs : List Int) : String → Option Json :=
  fun _ => some (Json.obj [("response", Json.obj
    [("data", Json.arr (vs.map fun v => Json.obj [("value", Json.num v)]))])])

/-- A mocked native layer for the ping round-trip scenario, answering
with the fixed pong response. -/
def pingNative : String → Option Json :=
  fun _ => some (Json.obj [("response", Json.obj
    [("pong", Json.num 1885957735)])])

/-!
Helper lemmas shared by several claims.
-/

/-- Extracting values from a list of singleton value records yields
exactly the wrapped values, in order. -/
theorem extractValues_wrapped (vs : List Int) :
    extractValues (vs.map fun v => Json.obj [("value", Json.num v)]) =
      .ok (vs.map Json.num) := by
  induction vs with
  | nil => rfl
  | cons v vs ih =>
      simp [extractValues, pyIndex, getField, ih, Bind.bind, Except.bind]

/-- Against the mocked data-carrying native layer, `RpcInvoke` unwraps
the response envelope. -/
theorem rpcInvoke_respNative (vs : List Int) (dev cmd params : String) :
    Pichler.RpcInvoke (respNative vs) dev cmd params =
      .ok (Json.obj [("data",
        Json.arr (vs.map fun v => Json.obj [("value", Json.num v)]))]) := by
  simp [Pichler.RpcInvoke, sessionRpcInvoke, respNative, Json.truthy,
    pyIndex, getField]

/-- The shared read body maps a data array of value records to the list
of its values, in order. -/
theorem readValuesBody_respData (vs : List Int) :
    readValuesBody (Json.obj [("data",
        Json.arr (vs.map fun v => Json.obj [("value", Json.num v)]))]) =
      .ok (vs.map Json.num) := by
  simp [readValuesBody, Json.truthy, pyIndex, getField, pyIter,
    extractValues_wrapped, Bind.bind, Except.bind]

/-!
The claims.
-/

/-- C1: a device identifier supplied to the constructor that contains no
domain separator is stored with the fixed suffix `.remote.lscontrol.dk`
appended; an identifier already containing a dot is stored unchanged. -/
theorem device_id_normalized (d u p : String) (cfg : String → Option String)
    (hd : d ≠ "") (hu : u ≠ "") (hp : p ≠ "") :
    pichlerInit (some d) (some u) (some p) cfg =
      .ok ({ device := normalizeDevice d, user := u, passwd := p }, []) ∧
    (d.toList.contains '.' = false →
      normalizeDevice d = d ++ ".remote.lscontrol.dk") ∧
    (d.toList.contains '.' = true → normalizeDevice d = d) := by
  refine ⟨?_, ?_, ?_⟩
  · simp [pichlerInit, truthyOpt, hd, hu, hp]
  · intro h; unfold normalizeDevice; rw [h]; rfl
  · intro h; unfold normalizeDevice; rw [h]; rfl

/-- C1 witness: the concrete identifier abc is stored with the suffix
appended. -/
theorem device_id_normalized_witness :
    pichlerInit (some "abc") (some "u") (some "p") (fun _ => none) =
      .ok ({ device := normalizeDevice "abc", user := "u", passwd := "p" },
           []) ∧ normalizeDevice "abc" = "abc.remote.lscontrol.dk" := by
  have h := device_id_normalized "abc" "u" "p" (fun _ => none)
    (by decide) (by decide) (by decide)
  exact ⟨h.1, h.2.1 (by decide)⟩

/-- C2: when the first native open returns the no-such-profile sentinel
status 5, the session constructor performs exactly one profile-creation
call followed by exactly one retry of open and no more; when the first
open returns any other status, it performs no profile creation and no
retry. -/
theorem open_session_profile_retry (openStatus : Nat → Int)
    (createStatus : Int) :
    (openStatus 0 = 5 →
      (sessionInit openStatus createStatus).1 =
        [.openSession, .createProfile, .openSession] ∧
      (sessionInit openStatus createStatus).1.count NabtoCall.createProfile
        = 1 ∧
      (sessionInit openStatus createStatus).1.count NabtoCall.openSession
        = 2 ∧
      (sessionInit openStatus createStatus).2 = openStatus 1) ∧
    (openStatus 0 ≠ 5 →
      (sessionInit openStatus createStatus).1 = [.openSession] ∧
      (sessionInit openStatus createStatus).1.count NabtoCall.createProfile
        = 0 ∧
      (sessionInit openStatus createStatus).1.count NabtoCall.openSession
        = 1 ∧
      (sessionInit openStatus createStatus).2 = openStatus 0) := by
  constructor
  · intro h
    simp [sessionInit, h, List.count_cons]
  · intro h
    simp [sessionInit, h, List.count_cons]

/-- C2 witness: with a first open status of 5, the trace is
open, create, open; with a first open status of 0, it is a single
open. -/
theorem open_session_profile_retry_witness :
    (sessionInit (fun k => if k = 0 then (5 : Int) else 7) 0).1 =
      [.openSession, .createProfile, .openSession] ∧
    (sessionInit (fun _ => (0 : Int)) 0).1 = [.openSession] :=
  ⟨((open_session_profile_retry (fun k => if k = 0 then (5 : Int) else 7) 0).1
      (by norm_num)).1,
   ((open_session_profile_retry (fun _ => (0 : Int)) 0).2
      (by norm_num)).1⟩

/-- C3: the batch reads build a request whose list entries are the
input elements in the same order and number, and return the value field
of each response data element in the array's order; when the device
preserves ordering (equal lengths) the output positions correspond 1:1
to the input positions.  Holds for inputs of any length, so in
particular for lengths 0, 1 and N. -/
theorem batch_read_preserves_order (lst : List BatchItem) (vs : List Int)
    (dev : String) :
    pyIndex (batchRequest lst) "request" =
      .ok (Json.obj [("list", Json.arr (lst.map listEntry))]) ∧
    (lst.map listEntry).length = lst.length ∧
    Pichler.DatapointRawReadListValues (respNative vs) dev lst =
      .ok (vs.map Json.num) ∧
    Pichler.SetpointRawReadListValues (respNative vs) dev lst =
      .ok (vs.map Json.num) ∧
    (vs.length = lst.length → (vs.map Json.num).length = lst.length) := by
  refine ⟨rfl, by simp, ?_, ?_, ?_⟩
  · simp [Pichler.DatapointRawReadListValues, rpcInvoke_respNative,
      readValuesBody_respData, Bind.bind, Except.bind]
  · simp [Pichler.SetpointRawReadListValues, rpcInvoke_respNative,
      readValuesBody_respData, Bind.bind, Except.bind]
  · intro h; simp [h]

/-- C3 witness: a two-element batch of equal length in and out. -/
theorem batch_read_preserves_order_witness :
    Pichler.DatapointRawReadListValues (respNative [8, 9]) "d"
      [BatchItem.pair 1 2, BatchItem.bare 3] =
      .ok [Json.num 8, Json.num 9] ∧
    ([Json.num 8, Json.num 9] : List Json).length =
      ([BatchItem.pair 1 2, BatchItem.bare 3] : List BatchItem).length := by
  have h := batch_read_preserves_order
    [BatchItem.pair 1 2, BatchItem.bare 3] [8, 9] "d"
  exact ⟨h.2.2.1, h.2.2.2.2 (by decide)⟩

/-- C4: when the underlying list read yields zero entries, the
single-value datapoint and setpoint reads raise `IndexError` (from
indexing the empty list) rather than returning a default; this covers
both a device response with an empty data array and an invoke that
produced no output buffer. -/
theorem single_read_empty_raises (native : String → Option Json)
    (dev : String) (a o : Int) :
    (Pichler.DatapointRawReadValues native dev a o 1 = .ok [] →
      Pichler.DatapointRawReadValue native dev a o = .error .indexError) ∧
    (Pichler.SetpointRawReadValues native dev a o 1 = .ok [] →
      Pichler.SetpointRawReadValue native dev a o = .error .indexError) ∧
    Pichler.DatapointRawReadValue (fun _ => none) dev a o =
      .error .indexError ∧
    Pichler.SetpointRawReadValue (fun _ => none) dev a o =
      .error .indexError ∧
    Pichler.DatapointRawReadValue (respNative []) dev a o =
      .error .indexError ∧
    Pichler.SetpointRawReadValue (respNative []) dev a o =
      .error .indexError := by
  refine ⟨?_, ?_, ?_, ?_, ?_, ?_⟩
  · intro h
    simp [Pichler.DatapointRawReadValue, h, Bind.bind, Except.bind]
  · intro h
    simp [Pichler.SetpointRawReadValue, h, Bind.bind, Except.bind]
  · rfl
  · rfl
  · have he : readValuesBody (Json.obj [("data", Json.arr [])]) = .ok [] :=
      readValuesBody_respData []
    simp [Pichler.DatapointRawReadValue, Pichler.DatapointRawReadValues,
      rpcInvoke_respNative, he, Bind.bind, Except.bind]
  · have he : readValuesBody (Json.obj [("data", Json.arr [])]) = .ok [] :=
      readValuesBody_respData []
    simp [Pichler.SetpointRawReadValue, Pichler.SetpointRawReadValues,
      rpcInvoke_respNative, he, Bind.bind, Except.bind]

/-- C4 witness: reading datapoint 3 while the native layer returns no
output buffer raises `IndexError`. -/
theorem single_read_empty_raises_witness :
    Pichler.DatapointRawReadValue (fun _ => none) "d" 3 0 =
      .error .indexError ∧
    Pichler.SetpointRawReadValue (respNative []) "d" 3 0 =
      .error .indexError := by
  have h := single_read_empty_raises (fun _ => none) "d" 3 0
  have h2 := single_read_empty_raises (respNative []) "d" 3 0
  exact ⟨h.1 rfl, h2.2.1 (by rfl)⟩

/-- C5: when all three identity fields are supplied (truthy), the
constructor never consults the configuration: its result is the same
for any two configuration contents, and the list of configuration keys
read is empty. -/
theorem explicit_args_ignore_config (d u p : String)
    (cfg₁ cfg₂ : String → Option String)
    (hd : d ≠ "") (hu : u ≠ "") (hp : p ≠ "") :
    pichlerInit (some d) (some u) (some p) cfg₁ =
      pichlerInit (some d) (some u) (some p) cfg₂ ∧
    (pichlerInit (some d) (some u) (some p) cfg₁).map (fun r => r.2) =
      .ok [] := by
  constructor
  · simp [pichlerInit, truthyOpt, hd, hu, hp]
  · simp [pichlerInit, truthyOpt, hd, hu, hp, Except.map]

/-- C5 witness: an absent configuration and a fully populated one give
the same construction result for explicit arguments. -/
theorem explicit_args_ignore_config_witness :
    pichlerInit (some "dev.x") (some "u") (some "p") (fun _ => none) =
      pichlerInit (some "dev.x") (some "u") (some "p")
        (fun _ => some "other") := by
  exact (explicit_args_ignore_config "dev.x" "u" "p" (fun _ => none)
    (fun _ => some "other") (by decide) (by decide) (by decide)).1

/-- C6: when one identity field is omitted, exactly that field's key is
read from the configuration; the resolved value is stored (the device
id additionally normalized), and construction fails with a
configuration error when the entry is absent. -/
theorem omitted_field_reads_config (dev usr pwd : String)
    (cfg : String → Option String)
    (hd : dev ≠ "") (hu : usr ≠ "") (hp : pwd ≠ "") :
    ((cfg "device" = none →
        pichlerInit none (some usr) (some pwd) cfg =
          .error (.configError "device")) ∧
     (∀ v, cfg "device" = some v →
        pichlerInit none (some usr) (some pwd) cfg =
          .ok ({ device := normalizeDevice v, user := usr, passwd := pwd },
               ["device"]))) ∧
    ((cfg "user" = none →
        pichlerInit (some dev) none (some pwd) cfg =
          .error (.configError "user")) ∧
     (∀ v, cfg "user" = some v →
        pichlerInit (some dev) none (some pwd) cfg =
          .ok ({ device := normalizeDevice dev, user := v, passwd := pwd },
               ["user"]))) ∧
    ((cfg "pass" = none →
        pichlerInit (some dev) (some usr) none cfg =
          .error (.configError "pass")) ∧
     (∀ v, cfg "pass" = some v →
        pichlerInit (some dev) (some usr) none cfg =
          .ok ({ device := normalizeDevice dev, user := usr, passwd := v },
               ["pass"]))) := by
  refine ⟨⟨?_, ?_⟩, ⟨?_, ?_⟩, ⟨?_, ?_⟩⟩ <;>
    first
      | (intro h;
         simp [pichlerInit, resolveField, truthyOpt, hd, hu, hp, h,
           Bind.bind, Except.bind])
      | (intro v h;
         simp [pichlerInit, resolveField, truthyOpt, hd, hu, hp, h,
           Bind.bind, Except.bind])

/-- C6 witness: with user and password supplied, an omitted device id is
resolved from the device configuration entry (and normalized), and an
absent entry fails construction. -/
theorem omitted_field_reads_config_witness :
    pichlerInit none (some "u") (some "p")
      (fun k => if k = "device" then some "dev42" else none) =
      .ok ({ device := normalizeDevice "dev42", user := "u", passwd := "p" },
           ["device"]) ∧
    pichlerInit none (some "u") (some "p") (fun _ => none) =
      .error (.configError "device") := by
  have h1 := omitted_field_reads_config "d" "u" "p"
    (fun k => if k = "device" then some "dev42" else none)
    (by decide) (by decide) (by decide)
  have h2 := omitted_field_reads_config "d" "u" "p" (fun _ => none)
    (by decide) (by decide) (by decide)
  exact ⟨h1.1.2 "dev42" (by decide), h2.1.1 rfl⟩

/-- C7: `RpcInvoke` consults the native layer only at the URL
`nabto://<device>/<command>.json?<params>` and, when a truthy result is
present, returns its response field; `Ping` issues the ping command
with the fixed magic parameter, and against the mocked pong response
yields exactly the pong object. -/
theorem rpc_invoke_url_and_ping (n₁ n₂ : String → Option Json)
    (dev cmd params : String) (j : Json)
    (hsame : n₁ (invokeUrl dev cmd params) = n₂ (invokeUrl dev cmd params)) :
    Pichler.RpcInvoke n₁ dev cmd params =
      Pichler.RpcInvoke n₂ dev cmd params ∧
    (n₁ (invokeUrl dev cmd params) = some j → Json.truthy j = true →
      Pichler.RpcInvoke n₁ dev cmd params = pyIndex j "response") ∧
    invokeUrl "dev1" "ping" "ping=1885957735" =
      "nabto://dev1/ping.json?ping=1885957735" ∧
    Pichler.Ping pingNative "dev1" =
      .ok (Json.obj [("pong", Json.num 1885957735)]) := by
  refine ⟨?_, ?_, rfl, rfl⟩
  · simp [Pichler.RpcInvoke, sessionRpcInvoke, hsame]
  · intro h ht
    simp [Pichler.RpcInvoke, sessionRpcInvoke, h, ht]

/-- C7 witness: against the pong-returning native layer, `RpcInvoke` on
the ping command returns the response field of the mocked reply. -/
theorem rpc_invoke_url_and_ping_witness :
    Pichler.RpcInvoke pingNative "dev1" "ping" "ping=1885957735" =
      pyIndex (Json.obj [("response",
        Json.obj [("pong", Json.num 1885957735)])]) "response" :=
  (rpc_invoke_url_and_ping pingNative pingNative "dev1" "ping"
    "ping=1885957735"
    (Json.obj [("response", Json.obj [("pong", Json.num 1885957735)])])
    rfl).2.1 rfl rfl

/-- C8: the range read returns the value field of each response data
element in the array's order; in particular reading three datapoints
from address 100 against the mocked 10/11/12 reply yields exactly
[10, 11, 12]. -/
theorem datapoint_range_read_extracts_values (dev : String)
    (a o l : Int) (vs : List Int) :
    Pichler.DatapointRawReadValues (respNative vs) dev a o l =
      .ok (vs.map Json.num) ∧
    Pichler.DatapointRawReadValues (respNative [10, 11, 12]) "dev1"
      100 0 3 = .ok [Json.num 10, Json.num 11, Json.num 12] := by
  have key : ∀ (dev₀ : String) (a₀ o₀ l₀ : Int) (vs₀ : List Int),
      Pichler.DatapointRawReadValues (respNative vs₀) dev₀ a₀ o₀ l₀ =
        .ok (vs₀.map Json.num) := by
    intro dev₀ a₀ o₀ l₀ vs₀
    simp [Pichler.DatapointRawReadValues, rpcInvoke_respNative,
      readValuesBody_respData, Bind.bind, Except.bind]
  exact ⟨key dev a o l vs, key "dev1" 100 0 3 [10, 11, 12]⟩

/-- C9 counterexample: an invoke issued on a session that has been
closed is still forwarded to the native library and does not fail with
an illegal-state error, contradicting the claimed guard. -/
theorem session_closed_invoke_counterexample :
    (sessionStep true (SessionOp.invoke "nabto://d/ping.json?ping=1")).2 =
      OpOutcome.nativeCalled ∧
    (sessionStep true (SessionOp.invoke "nabto://d/ping.json?ping=1")).2 ≠
      OpOutcome.illegalState :=
  ⟨rfl, by decide⟩

/-- C9 amended: the session keeps no closed-state flag; every
operation, including one performed after close (and a second close), is
forwarded unconditionally to the native library with the stored handle,
and no operation ever fails with an illegal-state error. -/
theorem session_no_closed_guard (closed : Bool) (op : SessionOp) :
    (sessionStep closed op).2 = OpOutcome.nativeCalled ∧
    (sessionStep closed SessionOp.close).1 = true := by
  cases op <;> simp [sessionStep]

/-- C10: a non-tuple input element of a batch read is treated as a bare
address whose request entry has obj defaulting to 0, and mixed lists of
bare addresses and pairs are valid inputs producing entries in input
order. -/
theorem bare_address_defaults_obj (a p o : Int) (rest : List BatchItem)
    (vs : List Int) (dev : String) :
    listEntry (BatchItem.bare a) =
      Json.obj [("address", Json.num a), ("obj", Json.num 0)] ∧
    pyIndex (batchRequest
        (BatchItem.bare a :: BatchItem.pair p o :: rest)) "request" =
      .ok (Json.obj [("list", Json.arr
        (Json.obj [("address", Json.num a), ("obj", Json.num 0)] ::
         Json.obj [("address", Json.num p), ("obj", Json.num o)] ::
         rest.map listEntry))]) ∧
    Pichler.DatapointRawReadListValues (respNative vs) dev
      (BatchItem.bare a :: BatchItem.pair p o :: rest) =
      .ok (vs.map Json.num) ∧
    Pichler.SetpointRawReadListValues (respNative vs) dev
      (BatchItem.bare a :: BatchItem.pair p o :: rest) =
      .ok (vs.map Json.num) := by
  refine ⟨rfl, rfl, ?_, ?_⟩
  · simp [Pichler.DatapointRawReadListValues, rpcInvoke_respNative,
      readValuesBody_respData, Bind.bind, Except.bind]
  · simp [Pichler.SetpointRawReadListValues, rpcInvoke_respNative,
      readValuesBody_respData, Bind.bind, Except.bind]
